import Mathlib

/-!
Verification development for the authentication core of the ollama-service
repository (`app/auth.py`, with orchestration used by `app/main.py`).

Python strings are modelled as lists of characters (`PyStr`): Python's
`startswith` and slicing (`auth_header[7:]`) act on code points, which
`List Char` mirrors exactly.  Absent headers/cookies are `none`; Python's
`request.headers.get(name, "")` default is `headerD`.  Database tables are
lists of rows; `fetchrow` returns the first matching row.  Machine words in
the SHA-256 digest are naturals truncated with `% 2^32`.  A database call
that can raise is modelled with `Except DbError`.
-/

/-- Model of a Python `str`: a list of Unicode code points. -/
abbrev PyStr := List Char

/-- Shorthand for turning a Lean string literal into the model type. -/
def pstr (s : String) : PyStr := s.data

/-- Constant `API_KEY_PREFIX = "waro_"` from auth.py line 13. -/
def API_KEY_PREFIX : PyStr := pstr "waro_"

/-- The parts of a FastAPI `Request` that auth.py reads: the `authorization`
header, the `x-api-key` header and the `session-token` cookie.  `none` is an
absent header/cookie. -/
structure HttpRequest where
  authorization : Option PyStr
  xApiKey : Option PyStr
  sessionCookie : Option PyStr
  deriving DecidableEq

/-- Python `request.headers.get(name, "")`: an absent header reads as `""`. -/
def headerD (h : Option PyStr) : PyStr := h.getD []

/-- Python truthiness of an optional string (`if api_key:`): true exactly when
the value is present and non-empty. -/
def truthy (h : Option PyStr) : Bool := headerD h ≠ []

/- SHA-256, needed by `hash_api_key` (auth.py uses `hashlib.sha256`).  Words
are naturals kept below `2^32` by explicit truncation. -/

/-- Truncation to a 32-bit word. -/
def w32 (n : Nat) : Nat := n % 4294967296

/-- Right rotation of a 32-bit word by `k`. -/
def rotr32 (k x : Nat) : Nat := w32 ((x >>> k) ||| (x <<< (32 - k)))

/-- The SHA-256 `Ch` function; 32-bit complement is xor with `2^32 - 1`. -/
def ch32 (x y z : Nat) : Nat := (x &&& y) ^^^ ((x ^^^ 4294967295) &&& z)

/-- The SHA-256 `Maj` function. -/
def maj32 (x y z : Nat) : Nat := (x &&& y) ^^^ (x &&& z) ^^^ (y &&& z)

/-- Big sigma 0. -/
def bsig0 (x : Nat) : Nat := rotr32 2 x ^^^ rotr32 13 x ^^^ rotr32 22 x

/-- Big sigma 1. -/
def bsig1 (x : Nat) : Nat := rotr32 6 x ^^^ rotr32 11 x ^^^ rotr32 25 x

/-- Small sigma 0. -/
def ssig0 (x : Nat) : Nat := rotr32 7 x ^^^ rotr32 18 x ^^^ (x >>> 3)

/-- Small sigma 1. -/
def ssig1 (x : Nat) : Nat := rotr32 17 x ^^^ rotr32 19 x ^^^ (x >>> 10)

/-- The 64 SHA-256 round constants of FIPS 180-4, written in decimal. -/
def sha256K : List Nat :=
  [1116352408, 1899447441, 3049323471, 3921009573, 961987163,
   1508970993, 2453635748, 2870763221, 3624381080, 310598401,
   607225278, 1426881987, 1925078388, 2162078206, 2614888103,
   3248222580, 3835390401, 4022224774, 264347078, 604807628,
   770255983, 1249150122, 1555081692, 1996064986, 2554220882,
   2821834349, 2952996808, 3210313671, 3336571891, 3584528711,
   113926993, 338241895, 666307205, 773529912, 1294757372,
   1396182291, 1695183700, 1986661051, 2177026350, 2456956037,
   2730485921, 2820302411, 3259730800, 3345764771, 3516065817,
   3600352804, 4094571909, 275423344, 430227734, 506948616,
   659060556, 883997877, 958139571, 1322822218, 1537002063,
   1747873779, 1955562222, 2024104815, 2227730452, 2361852424,
   2428436474, 2756734187, 3204031479, 3329325298]

/-- The SHA-256 initial hash value of FIPS 180-4, written in decimal. -/
def sha256H0 : List Nat :=
  [1779033703, 3144134277, 1013904242, 2773480762,
   1359893119, 2600822924, 528734635, 1541459225]

/-- Big-endian rendering of `n` on `k` bytes. -/
def beBytes (k n : Nat) : List Nat :=
  (List.range k).map (fun i => (n >>> (8 * (k - 1 - i))) % 256)

/-- A word from big-endian bytes. -/
def beWord (bs : List Nat) : Nat := bs.foldl (fun acc b => acc * 256 + b) 0

/-- SHA-256 padding: append `0x80`, zeros, and the 64-bit big-endian bit
length, reaching a multiple of 64 bytes. -/
def padBytes (msg : List Nat) : List Nat :=
  let zeros := (64 - (msg.length + 9) % 64) % 64
  msg ++ [128] ++ List.replicate zeros 0 ++ beBytes 8 (8 * msg.length)

/-- Split a byte list into 64-byte blocks; the fuel is an upper bound on the
number of blocks, so structural recursion suffices. -/
def blocks64Aux : Nat → List Nat → List (List Nat)
  | 0, _ => []
  | _ + 1, [] => []
  | n + 1, l => l.take 64 :: blocks64Aux n (l.drop 64)

/-- Split a byte list into 64-byte blocks. -/
def blocks64 (l : List Nat) : List (List Nat) := blocks64Aux l.length l

/-- The 64-entry message schedule grown from the block's sixteen words. -/
def schedule (w0 : List Nat) : List Nat :=
  (List.range 48).foldl
    (fun w i =>
      w ++ [w32 (ssig1 (w.getD (i + 14) 0) + w.getD (i + 9) 0 +
                 ssig0 (w.getD (i + 1) 0) + w.getD i 0)])
    w0

/-- The eight working variables of the compression function. -/
structure Sha8 where
  a : Nat
  b : Nat
  c : Nat
  d : Nat
  e : Nat
  f : Nat
  g : Nat
  h : Nat
  deriving DecidableEq

/-- One compression round; `kw` is the round constant plus schedule word. -/
def sha256Round (s : Sha8) (kw : Nat) : Sha8 :=
  let t1 := w32 (s.h + bsig1 s.e + ch32 s.e s.f s.g + kw)
  let t2 := w32 (bsig0 s.a + maj32 s.a s.b s.c)
  ⟨w32 (t1 + t2), s.a, s.b, s.c, w32 (s.d + t1), s.e, s.f, s.g⟩

/-- Compress one 64-byte block into the running hash (eight words). -/
def sha256Block (hs : List Nat) (block : List Nat) : List Nat :=
  let w0 := (List.range 16).map (fun i => beWord ((block.drop (4 * i)).take 4))
  let kw := List.zipWith (fun a b => a + b) sha256K (schedule w0)
  let s0 : Sha8 :=
    ⟨hs.getD 0 0, hs.getD 1 0, hs.getD 2 0, hs.getD 3 0,
     hs.getD 4 0, hs.getD 5 0, hs.getD 6 0, hs.getD 7 0⟩
  let s := kw.foldl sha256Round s0
  [w32 (hs.getD 0 0 + s.a), w32 (hs.getD 1 0 + s.b),
   w32 (hs.getD 2 0 + s.c), w32 (hs.getD 3 0 + s.d),
   w32 (hs.getD 4 0 + s.e), w32 (hs.getD 5 0 + s.f),
   w32 (hs.getD 6 0 + s.g), w32 (hs.getD 7 0 + s.h)]

/-- SHA-256 digest of a byte list, as 32 bytes. -/
def sha256Bytes (msg : List Nat) : List Nat :=
  ((blocks64 (padBytes msg)).foldl sha256Block sha256H0).flatMap (beBytes 4)

/-- Lowercase hexadecimal digit. -/
def hexDigit (n : Nat) : Char := (pstr "0123456789abcdef").getD n '0'

/-- Lowercase hexadecimal rendering of bytes (Python `hexdigest()`). -/
def toHexChars (bs : List Nat) : PyStr :=
  bs.flatMap (fun b => [hexDigit (b / 16), hexDigit (b % 16)])

/-- UTF-8 bytes of one code point. -/
def utf8EncodeCodepoint (n : Nat) : List Nat :=
  if n < 128 then [n]
  else if n < 2048 then [192 ||| (n >>> 6), 128 ||| (n &&& 63)]
  else if n < 65536 then
    [224 ||| (n >>> 12), 128 ||| ((n >>> 6) &&& 63), 128 ||| (n &&& 63)]
  else
    [240 ||| (n >>> 18), 128 ||| ((n >>> 12) &&& 63),
     128 ||| ((n >>> 6) &&& 63), 128 ||| (n &&& 63)]

/-- Python `api_key.encode()`: the UTF-8 byte encoding of the string. -/
def encodeUtf8 (s : PyStr) : List Nat :=
  s.flatMap (fun c => utf8EncodeCodepoint c.toNat)

/-- Embedding of `hash_api_key` (auth.py 32-33):
`hashlib.sha256(api_key.encode()).hexdigest()`. -/
def hash_api_key (api_key : PyStr) : PyStr :=
  toHexChars (sha256Bytes (encodeUtf8 api_key))

/-- Embedding of `extract_api_key` (auth.py 36-46). -/
def extract_api_key (req : HttpRequest) : Option PyStr :=
  let auth_header := headerD req.authorization
  if (pstr "Bearer ").isPrefixOf auth_header &&
      API_KEY_PREFIX.isPrefixOf (auth_header.drop 7) then
    some (auth_header.drop 7)
  else
    let api_key_header := headerD req.xApiKey
    if API_KEY_PREFIX.isPrefixOf api_key_header then some api_key_header
    else none

/-- Embedding of `extract_session_token` (auth.py 49-59). -/
def extract_session_token (req : HttpRequest) : Option PyStr :=
  let auth_header := headerD req.authorization
  if (pstr "Bearer ").isPrefixOf auth_header &&
      !API_KEY_PREFIX.isPrefixOf (auth_header.drop 7) then
    some (auth_header.drop 7)
  else
    match req.sessionCookie with
    | some tok => if tok = [] then none else some tok
    | none => none

/-- Row of the `api_tokens` table as selected by `validate_api_key`. -/
structure ApiTokenRow where
  id : String
  tenant_id : String
  scopes : List String
  expires_at : Option Int
  is_active : Bool
  key_hash : PyStr
  deriving DecidableEq

/-- Row of the `sessions` table as selected by `validate_session_token`;
`id` is the bearer value itself. -/
structure SessionRow where
  id : PyStr
  user_id : String
  expires_at : Option Int
  is_active : Bool
  deriving DecidableEq

/-- Row of the `member` table. -/
structure MemberRow where
  user_id : String
  tenant_id : String
  is_active : Bool
  deriving DecidableEq

/-- The dict a successful validation returns: `validate_api_key` yields the
`token_id`/`tenant_id`/`scopes` dict, `validate_session_token` the
`session_id`/`user_id`/`tenant_id` dict. -/
inductive Principal
  | apiKey (token_id tenant_id : String) (scopes : List String)
  | session (session_id : PyStr) (user_id tenant_id : String)
  deriving DecidableEq

/-- A database call raising (asyncpg exception). -/
inductive DbError
  | unavailable
  deriving DecidableEq

instance {ε α : Type} [DecidableEq ε] [DecidableEq α] :
    DecidableEq (Except ε α) := fun a b =>
  match a, b with
  | .error x, .error y => decidable_of_iff (x = y) (by simp)
  | .ok x, .ok y => decidable_of_iff (x = y) (by simp)
  | .error _, .ok _ => isFalse (by simp)
  | .ok _, .error _ => isFalse (by simp)

/-- Python `expires_at and expires_at < datetime.now(...)`: a null expiry is
falsy and short-circuits. -/
def expiredAt (expires_at : Option Int) (now : Int) : Bool :=
  match expires_at with
  | some t => t < now
  | none => false

/-- Embedding of `validate_api_key` (auth.py 62-98).  `api_tokens` is the
table; `fetchrow` returns the first row whose `key_hash` matches.  The
source awaits the `UPDATE ... SET last_used_at` with no exception handler,
so the outcome of that call is the `updateOutcome` parameter: if it raises,
the exception propagates out of the function (`.error`). -/
def validate_api_key (api_key : PyStr) (api_tokens : List ApiTokenRow)
    (now : Int) (updateOutcome : Except DbError Unit) :
    Except DbError (Option Principal) :=
  if api_key = [] || !API_KEY_PREFIX.isPrefixOf api_key then .ok none
  else
    let key_hash := hash_api_key api_key
    match api_tokens.find? (fun r => r.key_hash = key_hash) with
    | none => .ok none
    | some token =>
      if !token.is_active then .ok none
      else if expiredAt token.expires_at now then .ok none
      else
        match updateOutcome with
        | .error e => .error e
        | .ok _ => .ok (some (.apiKey token.id token.tenant_id token.scopes))

/-- The joined `fetchrow` of `validate_session_token`: the first session row
with the given id that joins to a member row with `m.user_id = s.user_id`
and `m.is_active = true` (`JOIN member m ON ... LIMIT 1`). -/
def sessionJoin (sessions : List SessionRow) (members : List MemberRow)
    (tok : PyStr) : Option (SessionRow × MemberRow) :=
  match sessions with
  | [] => none
  | s :: rest =>
    if s.id = tok then
      match members.find? (fun m => m.user_id = s.user_id && m.is_active) with
      | some m => some (s, m)
      | none => sessionJoin rest members tok
    else sessionJoin rest members tok

/-- Embedding of `validate_session_token` (auth.py 101-134). -/
def validate_session_token (session_token : PyStr)
    (sessions : List SessionRow) (members : List MemberRow) (now : Int) :
    Option Principal :=
  if session_token = [] then none
  else
    match sessionJoin sessions members session_token with
    | none => none
    | some (s, m) =>
      if !s.is_active then none
      else if expiredAt s.expires_at now then none
      else some (.session s.id s.user_id m.tenant_id)

/-- The persistent store seen by `require_auth`: the three tables, plus the
outcome of the best-effort-intended `last_used_at` update call. -/
structure Db where
  api_tokens : List ApiTokenRow
  sessions : List SessionRow
  members : List MemberRow
  deriving DecidableEq

/-- Outcome of `require_auth`: a principal, an `HTTPException(401, detail)`,
or a database exception propagating out. -/
inductive AuthOutcome
  | ok (p : Principal)
  | httpError (status : Nat) (detail : String)
  | dbError (e : DbError)
  deriving DecidableEq

/-- Embedding of `require_auth` (auth.py 137-158): try the API-key shape
first (`if api_key:` is Python truthiness), then the session shape, else the
generic 401. -/
def require_auth (req : HttpRequest) (db : Db) (now : Int)
    (updateOutcome : Except DbError Unit) : AuthOutcome :=
  let api_key := extract_api_key req
  if truthy api_key then
    match validate_api_key (headerD api_key) db.api_tokens now updateOutcome with
    | .error e => .dbError e
    | .ok (some p) => .ok p
    | .ok none => .httpError 401 "Invalid or expired API key"
  else
    let session_token := extract_session_token req
    if truthy session_token then
      match validate_session_token (headerD session_token) db.sessions db.members now with
      | some p => .ok p
      | none => .httpError 401 "Invalid or expired session"
    else
      .httpError 401
        "Authentication required. Use Authorization: Bearer <session_token> or API key"

/-- Program counter of one task running `get_pool` (auth.py 18-22): `start`
is about to evaluate `if _pool is None`; `creating` saw `None` and is
suspended awaiting `asyncpg.create_pool`; `done r` has returned pool
instance `r`. -/
inductive TaskPC
  | start
  | creating
  | done (r : Nat)
  deriving DecidableEq

/-- Interleaving state for `get_pool`: the module-level `_pool` variable, a
counter giving successive `create_pool` completions distinct instance ids,
the instances created and closed so far, and each task's program counter. -/
structure PoolState where
  pool : Option Nat
  nextId : Nat
  created : List Nat
  closed : List Nat
  tasks : List TaskPC
  deriving DecidableEq

/-- One cooperative step of task `i` in `get_pool`.  The `is None` check and
the assignment after the awaited `create_pool` are separate steps, exactly
as the `await` in the source suspends between them. -/
def stepTask (s : PoolState) (i : Nat) : PoolState :=
  match s.tasks.get? i with
  | none => s
  | some .start =>
    match s.pool with
    | none => { s with tasks := s.tasks.set i .creating }
    | some p => { s with tasks := s.tasks.set i (.done p) }
  | some .creating =>
    { s with pool := some s.nextId, nextId := s.nextId + 1,
             created := s.created ++ [s.nextId],
             tasks := s.tasks.set i (.done s.nextId) }
  | some (.done _) => s

/-- Run a schedule: a list of task indices, each receiving one step. -/
def runSchedule (s : PoolState) : List Nat → PoolState
  | [] => s
  | i :: rest => runSchedule (stepTask s i) rest

/-- Initial state: `_pool = None` and `n` tasks about to make first calls. -/
def initPool (n : Nat) : PoolState := ⟨none, 0, [], [], List.replicate n .start⟩

/-- Embedding of `close_pool` (auth.py 25-29): when `_pool` is set, close
that instance and reset the variable; other instances are unreachable. -/
def close_pool (s : PoolState) : PoolState :=
  match s.pool with
  | some p => { s with pool := none, closed := s.closed ++ [p] }
  | none => s

/- Helper lemmas shared by the claim theorems. -/

/-- A string carrying the API-key marker is non-empty. -/
theorem waro_ne_nil {t : PyStr} (hw : API_KEY_PREFIX.isPrefixOf t = true) :
    t ≠ [] := by
  intro h
  subst h
  exact absurd hw (by decide)

/-- Python slicing after the scheme: dropping 7 characters from
a Bearer header recovers the token. -/
theorem drop7_bearer (t : PyStr) : (pstr "Bearer " ++ t).drop 7 = t := by
  have h : (pstr "Bearer ").length = 7 := rfl
  rw [← h, List.drop_left]

/-- A Bearer header starts with the Bearer scheme. -/
theorem bearer_isPrefixOf (t : PyStr) :
    (pstr "Bearer ").isPrefixOf (pstr "Bearer " ++ t) = true :=
  List.isPrefixOf_iff_prefix.mpr (List.prefix_append _ _)

/-- Locator on a Bearer header whose token carries the marker. -/
theorem extract_api_key_bearer_waro (req : HttpRequest) (t : PyStr)
    (ha : req.authorization = some (pstr "Bearer " ++ t))
    (hw : API_KEY_PREFIX.isPrefixOf t = true) :
    extract_api_key req = some t := by
  simp [extract_api_key, headerD, ha, bearer_isPrefixOf, drop7_bearer, hw]

/-- Locator on a Bearer header whose token lacks the marker: the API-key
locator ignores the Authorization header and reads only `X-API-Key`. -/
theorem extract_api_key_bearer_other (req : HttpRequest) (t : PyStr)
    (ha : req.authorization = some (pstr "Bearer " ++ t))
    (hw : API_KEY_PREFIX.isPrefixOf t = false) :
    extract_api_key req =
      (if API_KEY_PREFIX.isPrefixOf (headerD req.xApiKey) then
        some (headerD req.xApiKey) else none) := by
  simp [extract_api_key, headerD, ha, bearer_isPrefixOf, drop7_bearer, hw]

/-- Session locator on a Bearer header whose token lacks the marker. -/
theorem extract_session_token_bearer_other (req : HttpRequest) (t : PyStr)
    (ha : req.authorization = some (pstr "Bearer " ++ t))
    (hw : API_KEY_PREFIX.isPrefixOf t = false) :
    extract_session_token req = some t := by
  simp [extract_session_token, headerD, ha, bearer_isPrefixOf, drop7_bearer, hw]

/-- The Bearer scheme is not a prefix of the empty header. -/
theorem bearer_not_prefix_nil :
    (pstr "Bearer ").isPrefixOf ([] : PyStr) = false := by decide

/-- The API-key marker is not a prefix of the empty string. -/
theorem waro_not_prefix_nil :
    API_KEY_PREFIX.isPrefixOf ([] : PyStr) = false := by decide

/-- C1 counterexample: the request carrying (Authorization: Bearer sess123)
and (X-API-Key: waro_zzz) is classified as ApiKey "waro_zzz" — the dedicated
API-key header is consulted before the Bearer token is ever classified as a
session token — and require_auth rejects on the API-key path, against the
claimed rule-2-before-rule-3 priority. -/
theorem c1_counterexample :
    extract_api_key ⟨some (pstr "Bearer sess123"), some (pstr "waro_zzz"), none⟩ =
      some (pstr "waro_zzz") ∧
    require_auth ⟨some (pstr "Bearer sess123"), some (pstr "waro_zzz"), none⟩
      ⟨[], [], []⟩ 0 (.ok ()) = .httpError 401 "Invalid or expired API key" := by
  decide

/-- C1 (amended): API-key location runs entirely before session location:
when the Authorization header carries scheme Bearer with a token lacking the
marker while an X-API-Key header carries a marker-prefixed value, the
request is classified as ApiKey of the X-API-Key value, and when that key
fails validation require_auth rejects on the API-key path. -/
theorem c1_amended (req : HttpRequest) (t k : PyStr) (db : Db) (now : Int)
    (u : Except DbError Unit)
    (ha : req.authorization = some (pstr "Bearer " ++ t))
    (ht : API_KEY_PREFIX.isPrefixOf t = false)
    (hx : req.xApiKey = some k)
    (hk : API_KEY_PREFIX.isPrefixOf k = true) :
    extract_api_key req = some k ∧
    (validate_api_key k db.api_tokens now u = .ok none →
      require_auth req db now u = .httpError 401 "Invalid or expired API key") := by
  have hex : extract_api_key req = some k := by
    rw [extract_api_key_bearer_other req t ha ht, hx]
    simp [headerD, hk]
  have hne := waro_ne_nil hk
  exact ⟨hex, fun hv => by simp [require_auth, hex, truthy, headerD, hne, hv]⟩

/-- C1 witness: the amended theorem applied to the counterexample request
with an empty api_tokens table, where the located key fails validation. -/
theorem c1_witness :
    extract_api_key ⟨some (pstr "Bearer sess124"), some (pstr "waro_zz4"), none⟩ =
      some (pstr "waro_zz4") ∧
    require_auth ⟨some (pstr "Bearer sess124"), some (pstr "waro_zz4"), none⟩
      ⟨[], [], []⟩ 7 (.ok ()) = .httpError 401 "Invalid or expired API key" := by
  have h := c1_amended ⟨some (pstr "Bearer sess124"), some (pstr "waro_zz4"), none⟩
    (pstr "sess124") (pstr "waro_zz4") ⟨[], [], []⟩ 7 (.ok ())
    (by decide) (by decide) rfl (by decide)
  exact ⟨h.1, h.2 (by decide)⟩

/-- Token row used by the C2 counterexample: active, no expiry, stored hash
equal to the digest of the presented key. -/
def c2Row : ApiTokenRow :=
  ⟨"tok1", "tenantA", ["extract"], none, true, hash_api_key (pstr "waro_key1")⟩

/-- Token row used by the C2 witness. -/
def c2wRow : ApiTokenRow :=
  ⟨"tok2", "tenantB", ["chat"], none, true, hash_api_key (pstr "waro_key2")⟩

/-- C2 counterexample: with a matching, active, unexpired record, a failing
last_used_at update makes validate_api_key propagate the database error
instead of returning the principal — the source awaits the UPDATE with no
exception handler, so the update's failure fails the request. -/
theorem c2_counterexample :
    validate_api_key (pstr "waro_key1") [c2Row] 0 (.error .unavailable) =
      .error .unavailable ∧
    validate_api_key (pstr "waro_key1") [c2Row] 0 (.ok ()) =
      .ok (some (.apiKey "tok1" "tenantA" ["extract"])) := by
  constructor
  · decide
  · decide

/-- C2 (amended): the last-used update is not best-effort: when the key
matches an active, unexpired record, validate_api_key returns the principal
with tenant and scopes from the record exactly when the awaited update call
succeeds; when that call raises, the error propagates out of validation. -/
theorem c2_amended (k : PyStr) (rows : List ApiTokenRow) (now : Int)
    (tok : ApiTokenRow)
    (hk : API_KEY_PREFIX.isPrefixOf k = true)
    (hfind : rows.find? (fun r => r.key_hash = hash_api_key k) = some tok)
    (hact : tok.is_active = true)
    (hexp : expiredAt tok.expires_at now = false) :
    validate_api_key k rows now (.ok ()) =
      .ok (some (.apiKey tok.id tok.tenant_id tok.scopes)) ∧
    ∀ e, validate_api_key k rows now (.error e) = .error e := by
  have hne := waro_ne_nil hk
  constructor
  · simp [validate_api_key, hk, hne, hfind, hact, hexp]
  · intro e
    simp [validate_api_key, hk, hne, hfind, hact, hexp]

/-- C2 witness: the amended theorem at a concrete record. -/
theorem c2_witness :
    validate_api_key (pstr "waro_key2") [c2wRow] 5 (.ok ()) =
      .ok (some (.apiKey "tok2" "tenantB" ["chat"])) ∧
    validate_api_key (pstr "waro_key2") [c2wRow] 5 (.error .unavailable) =
      .error .unavailable := by
  have h := c2_amended (pstr "waro_key2") [c2wRow] 5 c2wRow (by decide)
    (by decide) rfl rfl
  exact ⟨h.1, h.2 .unavailable⟩

/-- C3 counterexample: a request whose only credential material is a
non-marker X-API-Key value is not classified as a session token — both
locators return none and require_auth rejects with the generic
authentication-required message, not on the session path. -/
theorem c3_counterexample :
    extract_session_token ⟨none, some (pstr "abc123"), none⟩ = none ∧
    require_auth ⟨none, some (pstr "abc123"), none⟩ ⟨[], [], []⟩ 0 (.ok ()) =
      .httpError 401
        "Authentication required. Use Authorization: Bearer <session_token> or API key" := by
  decide

/-- C3 (amended): a token without the marker presented as an Authorization
Bearer token is classified as a session token; but a non-marker value
presented only in X-API-Key is classified as nothing at all: both locators
return none and require_auth rejects with the generic
authentication-required outcome rather than validating on the session
path. -/
theorem c3_amended (reqB reqX : HttpRequest) (t v : PyStr) (db : Db)
    (now : Int) (u : Except DbError Unit)
    (hBa : reqB.authorization = some (pstr "Bearer " ++ t))
    (hBt : API_KEY_PREFIX.isPrefixOf t = false)
    (hXa : reqX.authorization = none) (hXc : reqX.sessionCookie = none)
    (hXx : reqX.xApiKey = some v)
    (hXv : API_KEY_PREFIX.isPrefixOf v = false) :
    extract_session_token reqB = some t ∧
    extract_api_key reqX = none ∧ extract_session_token reqX = none ∧
    require_auth reqX db now u = .httpError 401
      "Authentication required. Use Authorization: Bearer <session_token> or API key" := by
  have h1 : extract_api_key reqX = none := by
    simp [extract_api_key, headerD, hXa, hXx, bearer_not_prefix_nil, hXv]
  have h2 : extract_session_token reqX = none := by
    simp [extract_session_token, headerD, hXa, hXc, bearer_not_prefix_nil]
  refine ⟨extract_session_token_bearer_other reqB t hBa hBt, h1, h2, ?_⟩
  simp [require_auth, h1, h2, truthy, headerD]

/-- C3 witness: the amended theorem at a Bearer session request and a
request carrying only (X-API-Key: abc124). -/
theorem c3_witness :
    extract_session_token ⟨some (pstr "Bearer sessA"), none, none⟩ =
      some (pstr "sessA") ∧
    extract_api_key ⟨none, some (pstr "abc124"), none⟩ = none ∧
    extract_session_token ⟨none, some (pstr "abc124"), none⟩ = none ∧
    require_auth ⟨none, some (pstr "abc124"), none⟩ ⟨[], [], []⟩ 3 (.ok ()) =
      .httpError 401
        "Authentication required. Use Authorization: Bearer <session_token> or API key" :=
  c3_amended ⟨some (pstr "Bearer sessA"), none, none⟩ ⟨none, some (pstr "abc124"), none⟩
    (pstr "sessA") (pstr "abc124") ⟨[], [], []⟩ 3 (.ok ())
    (by decide) (by decide) rfl rfl rfl (by decide)

/-- C4: a located API-key-shaped credential (Authorization: Bearer with the
marker) that fails validation rejects with the API-key 401, and the outcome
is the same whatever session cookie the request carries and whatever the
sessions and member tables hold — the session path is never consulted. -/
theorem c4_no_fallthrough (req : HttpRequest) (t : PyStr) (db : Db)
    (now : Int) (u : Except DbError Unit)
    (ha : req.authorization = some (pstr "Bearer " ++ t))
    (hw : API_KEY_PREFIX.isPrefixOf t = true)
    (hv : validate_api_key t db.api_tokens now u = .ok none) :
    require_auth req db now u = .httpError 401 "Invalid or expired API key" ∧
    ∀ cookie sessions members,
      require_auth { req with sessionCookie := cookie }
        { db with sessions := sessions, members := members } now u =
        .httpError 401 "Invalid or expired API key" := by
  have hgen : ∀ cookie sessions members,
      require_auth { req with sessionCookie := cookie }
        { db with sessions := sessions, members := members } now u =
        .httpError 401 "Invalid or expired API key" := by
    intro cookie sessions members
    have ha' : ({ req with sessionCookie := cookie } : HttpRequest).authorization =
        some (pstr "Bearer " ++ t) := ha
    have hex := extract_api_key_bearer_waro _ t ha' hw
    have hne := waro_ne_nil hw
    simp [require_auth, hex, truthy, headerD, hne]
    rw [hv]
  exact ⟨hgen req.sessionCookie db.sessions db.members, hgen⟩

/-- C7: the locator is a total pure function of the request (it is embedded
as one); on a request with no Authorization header, no X-API-Key header and
no session cookie both locators return none and require_auth fails with the
distinct generic authentication-required 401, not an invalid-credential
one. -/
theorem c7_no_credential (req : HttpRequest) (db : Db) (now : Int)
    (u : Except DbError Unit)
    (ha : req.authorization = none) (hx : req.xApiKey = none)
    (hc : req.sessionCookie = none) :
    extract_api_key req = none ∧ extract_session_token req = none ∧
    require_auth req db now u = .httpError 401
      "Authentication required. Use Authorization: Bearer <session_token> or API key" := by
  have h1 : extract_api_key req = none := by
    simp [extract_api_key, headerD, ha, hx, bearer_not_prefix_nil, waro_not_prefix_nil]
  have h2 : extract_session_token req = none := by
    simp [extract_session_token, headerD, ha, hc, bearer_not_prefix_nil]
  refine ⟨h1, h2, ?_⟩
  simp [require_auth, h1, h2, truthy, headerD]

/-- C7 witness: the empty request against the empty store. -/
theorem c7_witness :
    extract_api_key ⟨none, none, none⟩ = none ∧
    extract_session_token ⟨none, none, none⟩ = none ∧
    require_auth ⟨none, none, none⟩ ⟨[], [], []⟩ 0 (.ok ()) = .httpError 401
      "Authentication required. Use Authorization: Bearer <session_token> or API key" :=
  c7_no_credential ⟨none, none, none⟩ ⟨[], [], []⟩ 0 (.ok ()) rfl rfl rfl

/-- C10: scheme matching is exact — when the Authorization header value does
not begin with the literal "Bearer " (capital B, single trailing space),
neither locator derives a credential from it, and both behave exactly as if
the header were absent, falling through to X-API-Key and the cookie. -/
theorem c10_scheme_exact (req : HttpRequest)
    (h : (pstr "Bearer ").isPrefixOf (headerD req.authorization) = false) :
    extract_api_key req = extract_api_key { req with authorization := none } ∧
    extract_session_token req =
      extract_session_token { req with authorization := none } := by
  simp only [headerD] at h
  have h' : ¬ (pstr "Bearer " <+: req.authorization.getD []) := by
    intro hp
    rw [← List.isPrefixOf_iff_prefix, h] at hp
    cases hp
  have hBnil : pstr "Bearer " ≠ ([] : PyStr) := by decide
  constructor
  · simp [extract_api_key, headerD, h', hBnil]
  · simp [extract_session_token, headerD, h', hBnil]

/-- C10 witness: the lowercase scheme "bearer x", the spaceless "Bearer",
and a bare token are not matched as the Bearer scheme; classification falls
through to the X-API-Key header or cookie. -/
theorem c10_witness :
    extract_api_key ⟨some (pstr "bearer x"), some (pstr "waro_q"), none⟩ =
      extract_api_key ⟨none, some (pstr "waro_q"), none⟩ ∧
    extract_session_token ⟨some (pstr "Bearer"), none, some (pstr "ck")⟩ =
      extract_session_token ⟨none, none, some (pstr "ck")⟩ ∧
    extract_api_key ⟨some (pstr "waro_alone"), some (pstr "waro_q2"), none⟩ =
      extract_api_key ⟨none, some (pstr "waro_q2"), none⟩ :=
  ⟨(c10_scheme_exact ⟨some (pstr "bearer x"), some (pstr "waro_q"), none⟩ (by decide)).1,
   (c10_scheme_exact ⟨some (pstr "Bearer"), none, some (pstr "ck")⟩ (by decide)).2,
   (c10_scheme_exact ⟨some (pstr "waro_alone"), some (pstr "waro_q2"), none⟩ (by decide)).1⟩

/-- Helper: the joined lookup returns no row when every member row for a
matching session's user is inactive — the join condition requires
m.is_active = true. -/
theorem sessionJoin_eq_none (sessions : List SessionRow)
    (members : List MemberRow) (tok : PyStr)
    (h : ∀ s ∈ sessions, s.id = tok →
      ∀ m ∈ members, m.user_id = s.user_id → m.is_active = false) :
    sessionJoin sessions members tok = none := by
  induction sessions with
  | nil => rfl
  | cons s rest ih =>
    have hrest := ih (fun s' hs' => h s' (List.mem_cons_of_mem _ hs'))
    by_cases hid : s.id = tok
    · have hfind : members.find?
          (fun m => m.user_id = s.user_id && m.is_active) = none := by
        rw [List.find?_eq_none]
        intro m hm
        by_cases hu : m.user_id = s.user_id
        · have hact := h s (List.mem_cons_self _ _) hid m hm hu
          simp [hu, hact]
        · simp [hu]
      simp [sessionJoin, hid, hfind, hrest]
    · simp [sessionJoin, hid, hrest]

/-- C5: a session token whose session rows join only to inactive memberships
is rejected (no principal) even when the session row itself is active and
unexpired, and the rejection equals the one for a missing session row — the
two are indistinguishable to the caller. -/
theorem c5_inactive_membership (tok : PyStr) (sessions : List SessionRow)
    (members : List MemberRow) (now : Int)
    (h : ∀ s ∈ sessions, s.id = tok →
      ∀ m ∈ members, m.user_id = s.user_id → m.is_active = false) :
    validate_session_token tok sessions members now = none ∧
    validate_session_token tok sessions members now =
      validate_session_token tok [] members now := by
  have hj := sessionJoin_eq_none sessions members tok h
  constructor
  · by_cases htok : tok = [] <;> simp [validate_session_token, htok, hj]
  · by_cases htok : tok = [] <;>
      simp [validate_session_token, htok, hj, sessionJoin]

/-- C5 witness: an active, never-expiring session row whose only membership
is inactive. -/
theorem c5_witness :
    validate_session_token (pstr "sess42") [⟨pstr "sess42", "u7", none, true⟩]
      [⟨"u7", "tenantC", false⟩] 0 = none ∧
    validate_session_token (pstr "sess42") [⟨pstr "sess42", "u7", none, true⟩]
      [⟨"u7", "tenantC", false⟩] 0 =
      validate_session_token (pstr "sess42") [] [⟨"u7", "tenantC", false⟩] 0 :=
  c5_inactive_membership (pstr "sess42") [⟨pstr "sess42", "u7", none, true⟩]
    [⟨"u7", "tenantC", false⟩] 0 (by decide)

/-- C6: with a matched, active record, expiry is checked strictly against
the current time: expires_at strictly before now rejects, expires_at after
now succeeds, and a null expires_at never causes an expiry rejection. -/
theorem c6_expiry_boundary (k : PyStr) (rows : List ApiTokenRow) (now : Int)
    (tok : ApiTokenRow)
    (hk : API_KEY_PREFIX.isPrefixOf k = true)
    (hfind : rows.find? (fun r => r.key_hash = hash_api_key k) = some tok)
    (hact : tok.is_active = true) :
    (∀ t, tok.expires_at = some t → t < now →
      validate_api_key k rows now (.ok ()) = .ok none) ∧
    (∀ t, tok.expires_at = some t → now < t →
      validate_api_key k rows now (.ok ()) =
        .ok (some (.apiKey tok.id tok.tenant_id tok.scopes))) ∧
    (tok.expires_at = none →
      validate_api_key k rows now (.ok ()) =
        .ok (some (.apiKey tok.id tok.tenant_id tok.scopes))) := by
  have hne := waro_ne_nil hk
  refine ⟨?_, ?_, ?_⟩
  · intro t ht hlt
    have hexp : expiredAt tok.expires_at now = true := by
      simp [expiredAt, ht, hlt]
    simp [validate_api_key, hk, hne, hfind, hact, hexp]
  · intro t ht hgt
    have hexp : expiredAt tok.expires_at now = false := by
      simp [expiredAt, ht]
      omega
    simp [validate_api_key, hk, hne, hfind, hact, hexp]
  · intro ht
    have hexp : expiredAt tok.expires_at now = false := by
      simp [expiredAt, ht]
    simp [validate_api_key, hk, hne, hfind, hact, hexp]

/-- Key and rows used by the C6 witness. -/
def c6Key : PyStr := pstr "waro_kexp"

/-- Row expired one unit before now = 0. -/
def c6RowPast : ApiTokenRow :=
  ⟨"tk3", "tenC", [], some (-1), true, hash_api_key c6Key⟩

/-- Row expiring one unit after now = 0. -/
def c6RowFuture : ApiTokenRow :=
  ⟨"tk4", "tenD", [], some 1, true, hash_api_key c6Key⟩

/-- Row with null expiry. -/
def c6RowNull : ApiTokenRow :=
  ⟨"tk5", "tenE", [], none, true, hash_api_key c6Key⟩

/-- C6 witness: expiry one unit in the past rejects; one unit in the future
succeeds; null expiry succeeds. -/
theorem c6_witness :
    validate_api_key c6Key [c6RowPast] 0 (.ok ()) = .ok none ∧
    validate_api_key c6Key [c6RowFuture] 0 (.ok ()) =
      .ok (some (.apiKey "tk4" "tenD" [])) ∧
    validate_api_key c6Key [c6RowNull] 0 (.ok ()) =
      .ok (some (.apiKey "tk5" "tenE" [])) :=
  ⟨(c6_expiry_boundary c6Key [c6RowPast] 0 c6RowPast (by decide) (by decide)
      rfl).1 (-1) rfl (by norm_num),
   (c6_expiry_boundary c6Key [c6RowFuture] 0 c6RowFuture (by decide) (by decide)
      rfl).2.1 1 rfl (by norm_num),
   (c6_expiry_boundary c6Key [c6RowNull] 0 c6RowNull (by decide) (by decide)
      rfl).2.2 rfl⟩

/-- Token row used by the C8 witness. -/
def c8Row : ApiTokenRow :=
  ⟨"tok8", "tenH", [], none, true, hash_api_key (pstr "waro_key1")⟩

/-- C8: the digest is deterministic, agrees with the official SHA-256 test
vectors (lowercase hex over the UTF-8 byte encoding), distinct test keys
yield distinct digests, and validation depends on the raw key only through
its digest and the marker pre-filter: two marker-carrying keys with equal
digests validate identically against any table — no raw key material is
compared against stored values. -/
theorem c8_digest (k1 k2 : PyStr) (rows : List ApiTokenRow) (now : Int)
    (u : Except DbError Unit) :
    (k1 = k2 → hash_api_key k1 = hash_api_key k2) ∧
    hash_api_key (pstr "abc") =
      pstr "ba7816bf8f01cfea414140de5dae2223b00361a396177a9cb410ff61f20015ad" ∧
    hash_api_key (pstr "") =
      pstr "e3b0c44298fc1c149afbf4c8996fb92427ae41e4649b934ca495991b7852b855" ∧
    hash_api_key (pstr "waro_key1") ≠ hash_api_key (pstr "waro_key2") ∧
    (hash_api_key k1 = hash_api_key k2 →
      API_KEY_PREFIX.isPrefixOf k1 = true →
      API_KEY_PREFIX.isPrefixOf k2 = true →
      validate_api_key k1 rows now u = validate_api_key k2 rows now u) := by
  refine ⟨fun he => by rw [he], by decide, by decide, by decide, ?_⟩
  intro hh h1 h2
  have hne1 := waro_ne_nil h1
  have hne2 := waro_ne_nil h2
  simp [validate_api_key, h1, h2, hne1, hne2, hh]

/-- C8 witness: the determinism and digest-only conjuncts applied at a
concrete key and table. -/
theorem c8_witness :
    hash_api_key (pstr "waro_key1") = hash_api_key (pstr "waro_key1") ∧
    validate_api_key (pstr "waro_key1") [c8Row] 2 (.ok ()) =
      validate_api_key (pstr "waro_key1") [c8Row] 2 (.ok ()) := by
  have h := c8_digest (pstr "waro_key1") (pstr "waro_key1") [c8Row] 2 (.ok ())
  exact ⟨h.1 rfl, h.2.2.2.2 rfl (by decide) (by decide)⟩

/-- C9 counterexample: two concurrent first calls to get_pool interleaved at
the create_pool await both see _pool as None, so create_pool runs twice,
the callers receive distinct instances, and close_pool afterwards closes
only the instance left in _pool — the first instance is left behind. -/
theorem c9_counterexample :
    (runSchedule (initPool 2) [0, 1, 0, 1]).created = [0, 1] ∧
    (runSchedule (initPool 2) [0, 1, 0, 1]).tasks = [.done 0, .done 1] ∧
    (close_pool (runSchedule (initPool 2) [0, 1, 0, 1])).closed = [1] ∧
    (close_pool (runSchedule (initPool 2) [0, 1, 0, 1])).pool = none := by
  decide

/-- C9 (amended): lazy pool creation is an unguarded check-then-act across
the create_pool await: interleaved first calls each run create_pool, so two
concurrent first calls can create two pool instances and receive distinct
ones, with close_pool then reaching only the last instance stored; when a
first call instead completes before any other call checks _pool, exactly
one pool is created and every caller receives that same instance. -/
theorem c9_amended :
    (runSchedule (initPool 2) [0, 1, 0, 1]).created.length = 2 ∧
    (runSchedule (initPool 2) [0, 0, 1]).created = [0] ∧
    (runSchedule (initPool 2) [0, 0, 1]).tasks = [.done 0, .done 0] ∧
    (runSchedule (initPool 3) [0, 0, 1, 2]).created = [0] ∧
    (runSchedule (initPool 3) [0, 0, 1, 2]).tasks =
      [.done 0, .done 0, .done 0] := by
  decide

/-- C4 witness: a request carrying an invalid marker-prefixed Bearer key
together with a session cookie that would validate against the session
tables; the outcome is the API-key 401 and the session material is
ignored. -/
theorem c4_witness :
    validate_api_key (pstr "waro_bad") ([] : List ApiTokenRow) 0 (.ok ()) =
      .ok none ∧
    require_auth ⟨some (pstr "Bearer waro_bad"), none, some (pstr "goodcookie")⟩
      ⟨[], [⟨pstr "goodcookie", "u1", none, true⟩], [⟨"u1", "tenantB", true⟩]⟩
      0 (.ok ()) = .httpError 401 "Invalid or expired API key" := by
  have h := c4_no_fallthrough ⟨some (pstr "Bearer waro_bad"), none, none⟩
    (pstr "waro_bad") ⟨[], [], []⟩ 0 (.ok ()) (by decide) (by decide) (by decide)
  exact ⟨by decide, h.2 (some (pstr "goodcookie"))
    [⟨pstr "goodcookie", "u1", none, true⟩] [⟨"u1", "tenantB", true⟩]⟩
